import Mathlib

/-!
Verification of the Scene Automation Engine of the terrario-serra backend.

Shallow embedding of the Python source under `app/` (models, services,
routers).  Timestamps are modelled as `Int` seconds, sensor values and
thresholds as `ℚ`, JSON dictionaries as structures with `Option` fields,
and the SQLAlchemy session as an explicit `DB` value threaded through the
functions.  Device-provider calls (Tuya) are modelled by a deterministic
response function plus a log of issued calls.
-/

namespace Terrario

/-- `app/models/zone.py` — a `Zone` row (the fields the engine reads). -/
structure Zone where
  id : Nat
  mode : String
  deriving Repr, DecidableEq

/-- `app/models/scene.py` — a `Scene` row.  `settings` is JSON; the engine
only reads the `temperature_range` / `humidity_range` entries, modelled in
`SceneSettings` below. -/
structure RangeSetting where
  min : Option ℚ
  max : Option ℚ
  deriving Repr, DecidableEq

/-- The part of `Scene.settings` read by `normalize_scene_settings`. -/
structure SceneSettings where
  temperature_range : RangeSetting
  humidity_range : RangeSetting
  deriving Repr, DecidableEq

structure Scene where
  id : Nat
  zone_id : Nat
  is_active : Bool
  settings : SceneSettings
  deriving Repr, DecidableEq

/-- A rule condition: the JSON dict `{"condition": ..., "operator": ...,
"value": ...}` read with `.get`, hence `Option` fields. -/
structure Condition where
  condition : Option String
  operator : Option String
  value : Option ℚ
  deriving Repr, DecidableEq

/-- A rule action: the JSON dict `{"on": {...}, "off": {...}}`, each map a
list of (outlet id, flag) pairs in dict iteration order. -/
structure RuleAction where
  onMap : List (Nat × Bool)
  offMap : List (Nat × Bool)
  deriving Repr, DecidableEq

/-- `app/models/scene.py` — a `SceneRule` row. -/
structure SceneRule where
  id : Nat
  scene_id : Nat
  condition : Condition
  action : RuleAction
  priority : Int
  deriving Repr, DecidableEq

/-- `app/models/sensor.py` — a `Sensor` row. -/
structure Sensor where
  id : Nat
  zone_id : Nat
  deriving Repr, DecidableEq

/-- `app/models/sensor.py` — a `Reading` row. -/
structure Reading where
  sensor_id : Nat
  value : ℚ
  unit : String
  observed_at : Int
  deriving Repr, DecidableEq

/-- `app/models/device.py` — an `Outlet` row joined with its owning
`Device` (the reconciler always queries `Outlet.join(Device)`); `zone_id`,
`provider` and `deviceId` come from the device. -/
structure OutletRec where
  id : Nat
  zone_id : Nat
  provider : String
  deviceId : String
  channel : String
  last_state : Option Bool
  manual_override : Bool
  manual_override_until : Option Int
  deriving Repr, DecidableEq

/-- `app/models/automation_session.py` — an `AutomationSession` row. -/
structure SessionRow where
  id : Nat
  zone_id : Nat
  scene_id : Nat
  is_active : Bool
  started_at : Int
  duration_minutes : Int
  status : String
  last_evaluation_at : Option Int
  deriving Repr, DecidableEq

/-- `app/models/kill_switch.py` — a `KillSwitch` log row. -/
structure KSRow where
  id : Nat
  is_active : Bool
  deriving Repr, DecidableEq

/-- The persistence store visible to the engine. -/
structure DB where
  zones : List Zone
  scenes : List Scene
  sceneRules : List SceneRule
  sensors : List Sensor
  readings : List Reading
  outlets : List OutletRec
  sessions : List SessionRow
  killSwitch : List KSRow
  deriving Repr, DecidableEq

/-- The sensor-snapshot dict built by `get_zone_sensor_data`: keys
`temperature`, `temperature_timestamp`, `humidity`, `humidity_timestamp`,
each present only when set. -/
structure SensorData where
  temperature : Option ℚ
  temperature_timestamp : Option Int
  humidity : Option ℚ
  humidity_timestamp : Option Int
  deriving Repr, DecidableEq

/-- `if not sensor_data:` — the dict is falsy iff no key was ever set;
values and their timestamps are set together. -/
def SensorData.isEmpty (sd : SensorData) : Bool :=
  sd.temperature.isNone && sd.temperature_timestamp.isNone &&
    sd.humidity.isNone && sd.humidity_timestamp.isNone

/-- `sensor_data.get(condition_type)` for the value keys. -/
def SensorData.getMetric (sd : SensorData) (m : String) : Option ℚ :=
  if m = "temperature" then sd.temperature
  else if m = "humidity" then sd.humidity
  else none

/-- `sensor_data[f"{condition_type}_timestamp"]`. -/
def SensorData.getTimestamp (sd : SensorData) (m : String) : Option Int :=
  if m = "temperature" then sd.temperature_timestamp
  else if m = "humidity" then sd.humidity_timestamp
  else none

/-- `app/services/scene_automation.py:156` — `evaluate_scene_condition`.
`now` stands for `datetime.now()`; a reading is stale when
`age.total_seconds() > 120`. -/
def evaluate_scene_condition (cond : Condition) (sd : SensorData)
    (now : Int) : Bool :=
  match cond.condition, cond.operator, cond.value with
  | some ct, some op, some tv =>
    -- `all([condition_type, operator, threshold_value is not None])`:
    -- empty strings are falsy in Python.
    if ct = "" ∨ op = "" then false
    -- HOTFIX: a threshold of exactly 0 means the rule is disabled.
    else if tv = 0 then false
    else
      match sd.getMetric ct with
      | none => false
      | some sv =>
        let stale : Bool :=
          match sd.getTimestamp ct with
          | some ts => decide (120 < now - ts)
          | none => false
        if stale then false
        else if op = "<=" then decide (sv ≤ tv)
        else if op = ">=" then decide (tv ≤ sv)
        else if op = "<" then decide (sv < tv)
        else if op = ">" then decide (tv < sv)
        else if op = "==" then decide (sv = tv)
        else false
  | _, _, _ => false

/-- `Reading.order_by(observed_at.desc()).first()` restricted to one sensor
and one unit: the matching reading with the greatest `observed_at`
(first match wins on ties). -/
def latestReading (readings : List Reading) (sid : Nat) (unit : String) :
    Option Reading :=
  (readings.filter (fun r => r.sensor_id == sid && r.unit == unit)).foldl
    (fun acc r =>
      match acc with
      | none => some r
      | some b => if b.observed_at < r.observed_at then some r else some b)
    none

/-- One iteration of the sensor loop in `get_zone_sensor_data`: overwrite
the snapshot with this sensor's latest `"°C"` and `"%"` readings. -/
def updateSensorData (readings : List Reading) (sd : SensorData)
    (sensor : Sensor) : SensorData :=
  let sd1 :=
    match latestReading readings sensor.id "°C" with
    | some r =>
      { sd with temperature := some r.value
                temperature_timestamp := some r.observed_at }
    | none => sd
  match latestReading readings sensor.id "%" with
  | some r =>
    { sd1 with humidity := some r.value
               humidity_timestamp := some r.observed_at }
  | none => sd1

/-- `app/services/scene_automation.py:130` — `get_zone_sensor_data`. -/
def get_zone_sensor_data (zone_id : Nat) (db : DB) : SensorData :=
  (db.sensors.filter (fun s => s.zone_id == zone_id)).foldl
    (updateSensorData db.readings) ⟨none, none, none, none⟩

/-- `float(tr.get("min", 20)) if tr.get("min") else 20`: a missing or
falsy (zero) range bound falls back to the default. -/
def rangeOr (v : Option ℚ) (dflt : ℚ) : ℚ :=
  match v with
  | some x => if x = 0 then dflt else x
  | none => dflt

/-- The per-`SceneRule` body of the loop in `normalize_scene_settings`
(`app/services/scene_automation.py:86`): a zero (or missing) threshold of a
temperature/humidity rule is replaced by the matching range bound
(`<=` takes the minimum, any other operator the maximum). -/
def normalizeRule (tmin tmax hmin hmax : ℚ) (r : SceneRule) : SceneRule :=
  if r.condition.value.getD 0 = 0 then
    if r.condition.condition = some "temperature" then
      let nv := if r.condition.operator = some "<=" then tmin else tmax
      { r with condition := { r.condition with value := some nv } }
    else if r.condition.condition = some "humidity" then
      let nv := if r.condition.operator = some "<=" then hmin else hmax
      { r with condition := { r.condition with value := some nv } }
    else r
  else r

/-- `app/services/scene_automation.py:32` — `normalize_scene_settings`,
the part that rewrites the scene's `SceneRule` rows (and is committed).
The first half of the Python function (lines 39–70) rewrites only the JSON
copy of the rules inside `scene.settings["rules"]`, which no evaluation
path ever reads; it is not modelled. -/
def normalize_scene_settings (scene : Scene) (db : DB) : DB :=
  let tmin := rangeOr scene.settings.temperature_range.min 20
  let tmax := rangeOr scene.settings.temperature_range.max 26
  let hmin := rangeOr scene.settings.humidity_range.min 55
  let hmax := rangeOr scene.settings.humidity_range.max 70
  { db with sceneRules := db.sceneRules.map (fun r =>
      if r.scene_id == scene.id then normalizeRule tmin tmax hmin hmax r
      else r) }

/-- Outcome of one `tuya.switch_outlet` call: success, an unsuccessful
response, or a raised exception. -/
inductive ProviderResult where
  | success
  | failure (error : String)
  | exn (message : String)
  deriving Repr, DecidableEq

/-- A device command issued to the provider (instrumented with the id of
the outlet being processed). -/
structure ProvCall where
  outlet_id : Nat
  deviceId : String
  channel : String
  turn_on : Bool
  deriving Repr, DecidableEq

/-- One entry of `executed_switches`. -/
structure SwitchRecord where
  outlet_id : Nat
  action : String
  success : Bool
  deriving Repr, DecidableEq

/-- Environment of the reconciler: whether Tuya credentials are configured
(`get_tuya_provider` returns a provider) and the provider's deterministic
response to `switch_outlet(deviceId, channel, want)`. -/
structure ExecCtx where
  tuyaConfigured : Bool
  provider : String → String → Bool → ProviderResult

/-- Mutable state threaded through `execute_rule_action`: the outlet rows
plus the log of provider calls and the `executed_switches` list. -/
structure ExecState where
  outlets : List OutletRec
  calls : List ProvCall
  executed : List SwitchRecord
  deriving Repr, DecidableEq

/-- `outlet_map` lookup: the zone-filtered `Outlet.join(Device)` query. -/
def findOutlet (outlets : List OutletRec) (zid i : Nat) : Option OutletRec :=
  outlets.find? (fun o => o.zone_id == zid && o.id == i)

/-- `outlet.last_state = want` persisted on the outlet row. -/
def setOutletState (outlets : List OutletRec) (zid i : Nat) (b : Bool) :
    List OutletRec :=
  outlets.map (fun o =>
    if o.zone_id == zid && o.id == i then { o with last_state := some b }
    else o)

def actionName (want : Bool) : String := if want then "on" else "off"

/-- One iteration of the `on_actions` (`want = true`) or `off_actions`
(`want = false`) loop of `execute_rule_action`
(`app/services/scene_automation.py:218` and `:255`). -/
def processEntry (ctx : ExecCtx) (zid : Nat) (want : Bool)
    (st : ExecState) (entry : Nat × Bool) : ExecState :=
  match findOutlet st.outlets zid entry.1 with
  | none => st
  | some o =>
    if !entry.2 then st
    -- idempotence check: `if outlet.last_state is True/False: continue`
    else if o.last_state = some want then st
    else if ctx.tuyaConfigured && o.provider == "tuya" then
      let call : ProvCall := ⟨entry.1, o.deviceId, o.channel, want⟩
      match ctx.provider o.deviceId o.channel want with
      | .success =>
        { outlets := setOutletState st.outlets zid entry.1 want
          calls := st.calls ++ [call]
          executed := st.executed ++ [⟨entry.1, actionName want, true⟩] }
      | .failure _ =>
        { st with calls := st.calls ++ [call]
                  executed := st.executed ++ [⟨entry.1, actionName want, false⟩] }
      | .exn _ =>
        { st with calls := st.calls ++ [call]
                  executed := st.executed ++ [⟨entry.1, actionName want, false⟩] }
    else
      -- simulation branch: no provider call, state set optimistically
      { st with outlets := setOutletState st.outlets zid entry.1 want
                executed := st.executed ++ [⟨entry.1, actionName want, true⟩] }

/-- `app/services/scene_automation.py:208` — `execute_rule_action`:
process the `on` map, then the `off` map, against the zone's outlets. -/
def execute_rule_action (ctx : ExecCtx) (action : RuleAction)
    (zone_id : Nat) (st : ExecState) : ExecState :=
  let st1 := action.onMap.foldl (processEntry ctx zone_id true) st
  action.offMap.foldl (processEntry ctx zone_id false) st1

/-- Result dict of `process_scene_rules` (collapsed to what callers read). -/
inductive ProcResult where
  | failure (message : String)
  | ok (executed : List SwitchRecord)
  deriving Repr, DecidableEq

/-- Insertion step of the stable descending sort modelling
`ORDER BY priority DESC`. -/
def insertByPriorityDesc (r : SceneRule) :
    List SceneRule → List SceneRule
  | [] => [r]
  | x :: xs =>
    if x.priority < r.priority then r :: x :: xs
    else x :: insertByPriorityDesc r xs

/-- `SceneRule.order_by(priority.desc())`: stable descending sort. -/
def sortByPriorityDesc : List SceneRule → List SceneRule
  | [] => []
  | x :: xs => insertByPriorityDesc x (sortByPriorityDesc xs)

/-- `app/services/scene_automation.py:305` — `process_scene_rules`.
Returns the updated store, the provider calls issued, and the result. -/
def process_scene_rules (ctx : ExecCtx) (now : Int) (scene_id : Nat)
    (db : DB) : DB × List ProvCall × ProcResult :=
  match db.scenes.find? (fun s => s.id == scene_id) with
  | none => (db, [], .failure "Scene not found or not active")
  | some scene =>
    if !scene.is_active then
      (db, [], .failure "Scene not found or not active")
    else
      let db1 := normalize_scene_settings scene db
      let sd := get_zone_sensor_data scene.zone_id db1
      if sd.isEmpty then (db1, [], .failure "No sensor data available")
      else
        let rules := sortByPriorityDesc
          (db1.sceneRules.filter (fun r => r.scene_id == scene_id))
        if rules.isEmpty then
          (db1, [], .failure "No rules configured for scene")
        else
          let st := rules.foldl (fun st r =>
            if evaluate_scene_condition r.condition sd now then
              execute_rule_action ctx r.action scene.zone_id st
            else st) (⟨db1.outlets, [], []⟩ : ExecState)
          ({ db1 with outlets := st.outlets }, st.calls, .ok st.executed)

/-- Expiry test of the scheduler (`app/services/scheduler.py:40`):
`elapsed_time >= timedelta(minutes=duration_minutes)`. -/
def expiredCond (now : Int) (s : SessionRow) : Bool :=
  s.is_active && s.status == "running" &&
    s.duration_minutes * 60 ≤ now - s.started_at

/-- Mark one expired session completed (`scheduler.py:41-42`). -/
def expireSession (now : Int) (s : SessionRow) : SessionRow :=
  if expiredCond now s then
    { s with is_active := false, status := "completed" }
  else s

/-- Force the zones of expired sessions back to manual
(`scheduler.py:44-46`). -/
def expireZones (now : Int) (sessions : List SessionRow)
    (zones : List Zone) : List Zone :=
  let zids := (sessions.filter (expiredCond now)).map (fun s => s.zone_id)
  zones.map (fun z =>
    if zids.contains z.id then { z with mode := "manual" } else z)

/-- The re-query of `scheduler.py:52-55`. -/
def runningFilter (s : SessionRow) : Bool :=
  s.is_active && s.status == "running"

/-- `session.last_evaluation_at = current_time` on the session row. -/
def setLastEval (now : Int) (sid : Nat) (sessions : List SessionRow) :
    List SessionRow :=
  sessions.map (fun t =>
    if t.id == sid then { t with last_evaluation_at := some now } else t)

/-- What one scheduler tick produces. -/
structure TickResult where
  db : DB
  calls : List ProvCall
  evaluatedSessionIds : List Nat
  standaloneSceneIds : List Nat
  deriving Repr, DecidableEq

/-- `KillSwitch.order_by(id.desc()).first()`. -/
def latestKillSwitch (rows : List KSRow) : Option KSRow :=
  rows.foldl (fun acc r =>
    match acc with
    | none => some r
    | some b => if b.id < r.id then some r else some b) none

/-- The kill-switch gate of `scheduler.py:25-28`. -/
def killSwitchActive (db : DB) : Bool :=
  match latestKillSwitch db.killSwitch with
  | some k => k.is_active
  | none => false

/-- The session-evaluation loop of `scheduler.py:57-68`. -/
def evalSessions (ctx : ExecCtx) (now : Int) (l : List SessionRow)
    (db : DB) : DB × List ProvCall :=
  l.foldl (fun acc s =>
    let r := process_scene_rules ctx now s.scene_id acc.1
    ({ r.1 with sessions := setLastEval now s.id r.1.sessions },
      acc.2 ++ r.2.1)) (db, [])

/-- The standalone-scene loop of `scheduler.py:75-85`. -/
def evalStandalone (ctx : ExecCtx) (now : Int) (l : List Scene)
    (db : DB) : DB × List ProvCall :=
  l.foldl (fun acc sc =>
    let r := process_scene_rules ctx now sc.id acc.1
    (r.1, acc.2 ++ r.2.1)) (db, [])

/-- `app/services/scheduler.py:21` — `evaluate_all_active_scenes`, one
full scheduler tick: kill-switch gate, session expiry (committed), then
evaluation of running sessions, then of active scenes with no running
session. -/
def evaluate_all_active_scenes (ctx : ExecCtx) (now : Int) (db : DB) :
    TickResult :=
  if killSwitchActive db then ⟨db, [], [], []⟩
  else
    let db1 : DB := { db with
      sessions := db.sessions.map (expireSession now)
      zones := expireZones now db.sessions db.zones }
    let active2 := db1.sessions.filter runningFilter
    let r2 := evalSessions ctx now active2 db1
    let sceneIds := active2.map (fun s => s.scene_id)
    let standalone := r2.1.scenes.filter
      (fun sc => sc.is_active && !(sceneIds.contains sc.id))
    let r3 := evalStandalone ctx now standalone r2.1
    ⟨r3.1, r2.2 ++ r3.2, active2.map (fun s => s.id),
      standalone.map (fun sc => sc.id)⟩

/-- Response of the automation status endpoint (the fields the claims
mention). -/
structure StatusResponse where
  zone_id : Nat
  has_active_session : Bool
  time_remaining_seconds : Option Int
  deriving Repr, DecidableEq

/-- `app/routers/automation.py:18` — `get_zone_automation_status`.
`none` models the HTTP 404 for an unknown zone; otherwise the (possibly
mutated) store and the response are returned. -/
def get_zone_automation_status (now : Int) (zone_id : Nat) (db : DB) :
    Option (DB × StatusResponse) :=
  match db.zones.find? (fun z => z.id == zone_id) with
  | none => none
  | some _ =>
    match db.sessions.find? (fun s =>
        s.zone_id == zone_id && s.is_active && s.status == "running") with
    | some s =>
      let time_remaining := s.duration_minutes * 60 - (now - s.started_at)
      if time_remaining ≤ 0 then
        let db' : DB := { db with
          sessions := db.sessions.map (fun t =>
            if t.id == s.id then
              { t with is_active := false, status := "completed" }
            else t)
          zones := db.zones.map (fun z =>
            if z.id == zone_id then { z with mode := "manual" } else z) }
        some (db', ⟨zone_id, false, none⟩)
      else some (db, ⟨zone_id, true, some time_remaining⟩)
    | none => some (db, ⟨zone_id, false, none⟩)

/-! ## Auxiliary definitions used by the statements -/

/-- Forget the manual-override fields of an outlet row. -/
def clearOverride (o : OutletRec) : OutletRec :=
  { o with manual_override := false, manual_override_until := none }

/-- Lift `clearOverride` to the reconciler state. -/
def clearOverrideState (st : ExecState) : ExecState :=
  { st with outlets := st.outlets.map clearOverride }

/-- A rule action targeting a single outlet: turn it on (`w = true`, an
entry of the `on` map) or off (`w = false`, an entry of the `off` map). -/
def singleAction (i : Nat) (w : Bool) : RuleAction :=
  if w then ⟨[(i, true)], []⟩ else ⟨[], [(i, true)]⟩

/-- The reading the sensor loop actually leaves in the snapshot, stated
independently of the fold: the latest reading of the last sensor in the
list that has any reading for the unit. -/
def lastSensorReading (sensors : List Sensor) (readings : List Reading)
    (unit : String) : Option Reading :=
  sensors.reverse.findSome? (fun s => latestReading readings s.id unit)

/-- A one-zone store: scene 1 (active) for the outlet's zone, a rule
list, and sensor data. -/
def sceneDB (settings : SceneSettings) (sensors : List Sensor)
    (readings : List Reading) (o : OutletRec) (rl : List SceneRule) :
    DB :=
  ⟨[], [⟨1, o.zone_id, true, settings⟩], rl, sensors, readings, [o],
    [], []⟩

/-- A store carrying only sensor rows — `get_zone_sensor_data` reads
nothing else. -/
def sensorOnlyDB (sensors : List Sensor) (readings : List Reading) :
    DB :=
  ⟨[], [], [], sensors, readings, [], [], []⟩

/-- A rule of scene 1 whose action targets one outlet. -/
def mkSingleRule (rid : Nat) (c : Condition) (i : Nat) (w : Bool)
    (p : Int) : SceneRule :=
  ⟨rid, 1, c, singleAction i w, p⟩

/-! ## Concrete fixtures for counterexamples and witnesses -/

/-- Simulation mode: no Tuya credentials configured; the provider function
is never reached. -/
def simCtx : ExecCtx := ⟨false, fun _ _ _ => ProviderResult.success⟩

/-- Tuya configured, every switch command fails. -/
def failCtx : ExecCtx := ⟨true, fun _ _ _ => ProviderResult.failure "boom"⟩

/-- Outlet 7 of zone 1: last known state off, manual override active
until t = 60. -/
def overriddenOutlet : OutletRec :=
  ⟨7, 1, "tuya", "dev7", "switch_1", some false, true, some 60⟩

/-- A scene-settings JSON with no ranges configured. -/
def noRanges : SceneSettings := ⟨⟨none, none⟩, ⟨none, none⟩⟩

/-- Outlet 5 of zone 1, last known state off, no override. -/
def outlet5 : OutletRec := ⟨5, 1, "tuya", "d", "s1", some false, false, none⟩

/-- Rule (priority 1): temperature ≤ 18 → outlet 5 on. -/
def ruleOn5 : SceneRule :=
  ⟨1, 1, ⟨some "temperature", some "<=", some 18⟩, ⟨[(5, true)], []⟩, 1⟩

/-- Rule (priority 2): temperature ≥ 18 → outlet 5 off. -/
def ruleOff5 : SceneRule :=
  ⟨2, 1, ⟨some "temperature", some ">=", some 18⟩, ⟨[], [(5, true)]⟩, 2⟩

/-- Zone 1 with active scene 1, the two conflicting rules, and a fresh
reading of exactly 18 °C, so both rules fire. -/
def dbConflict : DB :=
  ⟨[⟨1, "manual"⟩], [⟨1, 1, true, noRanges⟩], [ruleOn5, ruleOff5],
    [⟨1, 1⟩], [⟨1, 18, "°C", 0⟩], [outlet5], [], []⟩

/-- Same store with the two rules presented in the opposite order. -/
def dbConflictRev : DB :=
  ⟨[⟨1, "manual"⟩], [⟨1, 1, true, noRanges⟩], [ruleOff5, ruleOn5],
    [⟨1, 1⟩], [⟨1, 18, "°C", 0⟩], [outlet5], [], []⟩

/-- Rule (priority 1) with threshold exactly 0: temperature ≤ 0 →
outlet 5 on. -/
def zeroRule : SceneRule :=
  ⟨1, 1, ⟨some "temperature", some "<=", some 0⟩, ⟨[(5, true)], []⟩, 1⟩

/-- Zone 1, active scene, the zero-threshold rule, fresh reading 15 °C. -/
def dbZero : DB :=
  ⟨[⟨1, "manual"⟩], [⟨1, 1, true, noRanges⟩], [zeroRule],
    [⟨1, 1⟩], [⟨1, 15, "°C", 0⟩], [outlet5], [], []⟩

/-- A running 15-minute session for zone 1 / scene 1 started at t = 0. -/
def runningSession : SessionRow := ⟨1, 1, 1, true, 0, 15, "running", none⟩

/-- Zone 1 with a running session whose scene is flagged inactive; the
rule would fire (15 ≤ 18) were the scene evaluated. -/
def dbInactiveScene : DB :=
  ⟨[⟨1, "automatic"⟩], [⟨1, 1, false, noRanges⟩], [ruleOn5],
    [⟨1, 1⟩], [⟨1, 15, "°C", 0⟩], [outlet5], [runningSession], []⟩

/-- The same store with the scene flagged active. -/
def dbActiveScene : DB := { dbInactiveScene with scenes := [⟨1, 1, true, noRanges⟩] }

/-- The same store with a kill-switch log whose latest entry is active. -/
def dbKill : DB := { dbActiveScene with killSwitch := [⟨1, false⟩, ⟨2, true⟩] }

/-- Active scene, running session started at t = 0 with 15 minutes of
duration, reading fresh at t = 1000 (past expiry). -/
def dbExpired : DB :=
  ⟨[⟨1, "automatic"⟩], [⟨1, 1, true, noRanges⟩], [ruleOn5],
    [⟨1, 1⟩], [⟨1, 15, "°C", 1000⟩], [outlet5], [runningSession], []⟩

/-- Two sensors of zone 1: sensor 1 has the most recent temperature
reading of the zone (value 10 at t = 100), sensor 2 an older one
(value 99 at t = 50). -/
def dbTwoSensors : DB :=
  ⟨[], [], [], [⟨1, 1⟩, ⟨2, 1⟩],
    [⟨1, 10, "°C", 100⟩, ⟨2, 99, "°C", 50⟩], [], [], []⟩

/-- Zone 1 with only the running session, for the status endpoint. -/
def dbStatus : DB :=
  ⟨[⟨1, "automatic"⟩], [], [], [], [], [], [runningSession], []⟩

/-! ## Claim theorems -/

/-- C1 counterexample: outlet 7 has an active manual override (flag set,
expiry t = 60, in the future of the tick at t = 0) and `last_state` off;
the desired state says on.  The reconciler nevertheless switches the
outlet: `last_state` becomes on and an executed switch is recorded — there
is no `manual_override_active` skip (no such reason exists anywhere in the
reconciler). -/
theorem C1_counterexample :
    overriddenOutlet.manual_override = true ∧
    overriddenOutlet.manual_override_until = some 60 ∧ (0 : Int) < 60 ∧
    overriddenOutlet.last_state = some false ∧
    execute_rule_action simCtx ⟨[(7, true)], []⟩ 1
        ⟨[overriddenOutlet], [], []⟩ =
      ⟨[{ overriddenOutlet with last_state := some true }], [],
        [⟨7, "on", true⟩]⟩ := by decide

/-- C2 counterexample: the two rules conflict on outlet 5 and both
conditions hold at 18 °C; the rule with the higher priority value
(`ruleOff5`, priority 2) prescribes off, yet the final state applied is
on — the rule with the *lower* priority wins, in both presentation
orders. -/
theorem C2_counterexample :
    ruleOn5.priority = 1 ∧ ruleOff5.priority = 2 ∧
    evaluate_scene_condition ruleOn5.condition
      (get_zone_sensor_data 1 dbConflict) 0 = true ∧
    evaluate_scene_condition ruleOff5.condition
      (get_zone_sensor_data 1 dbConflict) 0 = true ∧
    (process_scene_rules simCtx 0 1 dbConflict).1.outlets =
      [{ outlet5 with last_state := some true }] ∧
    (process_scene_rules simCtx 0 1 dbConflictRev).1.outlets =
      [{ outlet5 with last_state := some true }] := by decide

/-- C3 counterexample: `zeroRule` has threshold exactly 0, yet processing
the scene fires it: `normalize_scene_settings` first rewrites the zero
threshold to the fallback 20, and 15 ≤ 20 holds, so outlet 5 is switched
on. -/
theorem C3_counterexample :
    zeroRule.condition.value = some 0 ∧
    (process_scene_rules simCtx 0 1 dbZero).1.outlets =
      [{ outlet5 with last_state := some true }] ∧
    (process_scene_rules simCtx 0 1 dbZero).2.2 =
      ProcResult.ok [⟨5, "on", true⟩] := by decide

/-- C4 counterexample: zone 1 has a running session referencing scene 1,
which is flagged inactive; its rule would fire (15 ≤ 18).  The tick does
not evaluate it — the outlet stays off and `process_scene_rules` reports
the scene as "not found or not active" — whereas the identical store with
the scene flagged active switches the outlet on. -/
theorem C4_counterexample :
    runningSession ∈ dbInactiveScene.sessions ∧
    runningSession.status = "running" ∧ runningSession.is_active = true ∧
    dbInactiveScene.scenes.find?
        (fun s => s.id == runningSession.scene_id) =
      some ⟨1, 1, false, noRanges⟩ ∧
    (evaluate_all_active_scenes simCtx 0 dbInactiveScene).db.outlets =
      [outlet5] ∧
    (process_scene_rules simCtx 0 1 dbInactiveScene).2.2 =
      ProcResult.failure "Scene not found or not active" ∧
    (evaluate_all_active_scenes simCtx 0 dbActiveScene).db.outlets =
      [{ outlet5 with last_state := some true }] := by decide

/-- C9 counterexample: sensor 1 produced the zone's most recent
temperature reading (value 10 at t = 100), but the snapshot holds the
older reading of sensor 2 (value 99 at t = 50), because the sensor loop
lets the last sensor in the list overwrite the snapshot. -/
theorem C9_counterexample :
    (⟨1, 1⟩ : Sensor) ∈ dbTwoSensors.sensors ∧
    (⟨1, 10, "°C", 100⟩ : Reading) ∈ dbTwoSensors.readings ∧
    (50 : Int) < 100 ∧
    (get_zone_sensor_data 1 dbTwoSensors).temperature = some 99 ∧
    (get_zone_sensor_data 1 dbTwoSensors).temperature_timestamp =
      some 50 := by decide

/-- C5: when the most recent kill-switch log entry is active, a full
scheduler tick returns immediately: the store — hence every outlet's
`last_state` and every session's status — is unchanged, zero device
commands are issued, and no session or standalone scene is evaluated. -/
theorem C5_kill_switch_gates_tick (ctx : ExecCtx) (now : Int) (db : DB)
    (h : killSwitchActive db = true) :
    evaluate_all_active_scenes ctx now db = ⟨db, [], [], []⟩ := by
  simp [evaluate_all_active_scenes, h]

theorem C5_witness :
    killSwitchActive dbKill = true ∧
    evaluate_all_active_scenes simCtx 0 dbKill = ⟨dbKill, [], [], []⟩ :=
  ⟨by decide, C5_kill_switch_gates_tick simCtx 0 dbKill (by decide)⟩

/-- C3 (amended): a rule whose threshold is still exactly 0 at evaluation
time never fires — `evaluate_scene_condition` returns false.  The claim
as stated fails for the whole pipeline because `process_scene_rules`
first rewrites zero thresholds of temperature/humidity rules to the
scene's range fallbacks, after which the rule can fire (see the
counterexample). -/
theorem C3_zero_threshold_inert (cond : Condition) (sd : SensorData)
    (now : Int) (h : cond.value = some 0) :
    evaluate_scene_condition cond sd now = false := by
  rcases cond with ⟨c, o, v⟩
  simp only at h
  subst h
  cases c <;> cases o <;> simp [evaluate_scene_condition]

theorem C3_witness :
    (⟨some "temperature", some "<=", some 0⟩ : Condition).value =
      some 0 ∧
    evaluate_scene_condition ⟨some "temperature", some "<=", some 0⟩
      ⟨some (-5), some 0, none, none⟩ 0 = false :=
  ⟨rfl, C3_zero_threshold_inert _ _ 0 rfl⟩

/-- The temperature fields after one sensor-loop iteration. -/
theorem updateSensorData_temp_pair (readings : List Reading)
    (sd : SensorData) (s : Sensor) :
    ((updateSensorData readings sd s).temperature,
      (updateSensorData readings sd s).temperature_timestamp) =
      match latestReading readings s.id "°C" with
      | some r => (some r.value, some r.observed_at)
      | none => (sd.temperature, sd.temperature_timestamp) := by
  cases ht : latestReading readings s.id "°C" <;>
    cases hh : latestReading readings s.id "%" <;>
      simp [updateSensorData, ht, hh]

/-- The humidity fields after one sensor-loop iteration. -/
theorem updateSensorData_hum_pair (readings : List Reading)
    (sd : SensorData) (s : Sensor) :
    ((updateSensorData readings sd s).humidity,
      (updateSensorData readings sd s).humidity_timestamp) =
      match latestReading readings s.id "%" with
      | some r => (some r.value, some r.observed_at)
      | none => (sd.humidity, sd.humidity_timestamp) := by
  cases ht : latestReading readings s.id "°C" <;>
    cases hh : latestReading readings s.id "%" <;>
      simp [updateSensorData, ht, hh]

/-- The sensor fold keeps, per metric, the latest reading of the last
sensor that has one. -/
theorem foldl_updateSensorData_temp (readings : List Reading)
    (sensors : List Sensor) (sd0 : SensorData) :
    ((sensors.foldl (updateSensorData readings) sd0).temperature,
      (sensors.foldl (updateSensorData readings) sd0).temperature_timestamp) =
      match sensors.reverse.findSome?
          (fun s => latestReading readings s.id "°C") with
      | some r => (some r.value, some r.observed_at)
      | none => (sd0.temperature, sd0.temperature_timestamp) := by
  induction sensors generalizing sd0 with
  | nil => simp
  | cons s rest ih =>
    rw [List.foldl_cons, List.reverse_cons, List.findSome?_append, ih]
    cases hr : rest.reverse.findSome?
        (fun s => latestReading readings s.id "°C") with
    | some r => simp [Option.or]
    | none =>
      have h := updateSensorData_temp_pair readings sd0 s
      cases ht : latestReading readings s.id "°C" <;>
        rw [ht] at h <;> simp [List.findSome?, ht, Option.or, h]

/-- Humidity version of `foldl_updateSensorData_temp`. -/
theorem foldl_updateSensorData_hum (readings : List Reading)
    (sensors : List Sensor) (sd0 : SensorData) :
    ((sensors.foldl (updateSensorData readings) sd0).humidity,
      (sensors.foldl (updateSensorData readings) sd0).humidity_timestamp) =
      match sensors.reverse.findSome?
          (fun s => latestReading readings s.id "%") with
      | some r => (some r.value, some r.observed_at)
      | none => (sd0.humidity, sd0.humidity_timestamp) := by
  induction sensors generalizing sd0 with
  | nil => simp
  | cons s rest ih =>
    rw [List.foldl_cons, List.reverse_cons, List.findSome?_append, ih]
    cases hr : rest.reverse.findSome?
        (fun s => latestReading readings s.id "%") with
    | some r => simp [Option.or]
    | none =>
      have h := updateSensorData_hum_pair readings sd0 s
      cases ht : latestReading readings s.id "%" <;>
        rw [ht] at h <;> simp [List.findSome?, ht, Option.or, h]

/-- C9 (amended): the snapshot handed to rule evaluation carries, per
metric, the value and timestamp of the latest reading of the *last*
sensor in the zone's sensor list that has any reading for that metric —
not the most recent reading across the whole zone (see the
counterexample). -/
theorem C9_snapshot_last_sensor (zone_id : Nat) (db : DB) :
    (get_zone_sensor_data zone_id db).temperature =
      (lastSensorReading (db.sensors.filter (fun s => s.zone_id == zone_id))
        db.readings "°C").map (fun r => r.value) ∧
    (get_zone_sensor_data zone_id db).temperature_timestamp =
      (lastSensorReading (db.sensors.filter (fun s => s.zone_id == zone_id))
        db.readings "°C").map (fun r => r.observed_at) ∧
    (get_zone_sensor_data zone_id db).humidity =
      (lastSensorReading (db.sensors.filter (fun s => s.zone_id == zone_id))
        db.readings "%").map (fun r => r.value) ∧
    (get_zone_sensor_data zone_id db).humidity_timestamp =
      (lastSensorReading (db.sensors.filter (fun s => s.zone_id == zone_id))
        db.readings "%").map (fun r => r.observed_at) := by
  have ht := foldl_updateSensorData_temp db.readings
    (db.sensors.filter (fun s => s.zone_id == zone_id))
    ⟨none, none, none, none⟩
  have hh := foldl_updateSensorData_hum db.readings
    (db.sensors.filter (fun s => s.zone_id == zone_id))
    ⟨none, none, none, none⟩
  unfold get_zone_sensor_data
  unfold lastSensorReading
  cases hrt : (db.sensors.filter (fun s => s.zone_id == zone_id)).reverse.findSome?
      (fun s => latestReading db.readings s.id "°C") <;>
    cases hrh : (db.sensors.filter (fun s => s.zone_id == zone_id)).reverse.findSome?
        (fun s => latestReading db.readings s.id "%") <;>
      rw [hrt] at ht <;> rw [hrh] at hh <;>
        simp_all [Prod.ext_iff]

/-- `find?` ignores a map that fixes every satisfying element and
preserves the predicate. -/
theorem find?_map_fix {α : Type} (l : List α) (f : α → α) (p : α → Bool)
    (hp : ∀ a, p (f a) = p a) (hfix : ∀ a, p a = true → f a = a) :
    (l.map f).find? p = l.find? p := by
  induction l with
  | nil => rfl
  | cons a t ih =>
    simp only [List.map_cons, List.find?_cons, hp a]
    cases hpa : p a
    · exact ih
    · rw [hfix a hpa]

/-- Updating a different outlet id leaves the lookup unchanged. -/
theorem findOutlet_setOutletState_ne (outs : List OutletRec)
    (zid i j : Nat) (w : Bool) (hij : j ≠ i) :
    findOutlet (setOutletState outs zid j w) zid i =
      findOutlet outs zid i := by
  unfold findOutlet setOutletState
  apply find?_map_fix
  · intro a
    by_cases h : (a.zone_id == zid && a.id == j) = true <;> simp [h]
  · intro a ha
    have hai : a.id = i := by
      simp at ha
      exact ha.2
    have hcond : (a.zone_id == zid && a.id == j) = false := by
      have hj : (a.id == j) = false := by
        simp [hai]
        exact fun h => hij h.symm
      simp [hj]
    simp [hcond]

/-- Processing an entry for a different outlet id never touches outlet
`i`: its lookup is unchanged and any new call or record carries the other
id. -/
theorem processEntry_other (ctx : ExecCtx) (zid : Nat) (want : Bool)
    (st : ExecState) (a : Nat × Bool) (i : Nat) (hai : a.1 ≠ i) :
    findOutlet (processEntry ctx zid want st a).outlets zid i =
        findOutlet st.outlets zid i ∧
    (∀ c ∈ (processEntry ctx zid want st a).calls,
        c ∈ st.calls ∨ c.outlet_id = a.1) ∧
    (∀ e ∈ (processEntry ctx zid want st a).executed,
        e ∈ st.executed ∨ e.outlet_id = a.1) := by
  unfold processEntry
  cases hf : findOutlet st.outlets zid a.1 with
  | none => exact ⟨rfl, fun c hc => Or.inl hc, fun e he => Or.inl he⟩
  | some o =>
    dsimp only
    by_cases hb : (!a.2) = true
    · rw [if_pos hb]
      exact ⟨rfl, fun c hc => Or.inl hc, fun e he => Or.inl he⟩
    · rw [if_neg hb]
      by_cases hls : o.last_state = some want
      · rw [if_pos hls]
        exact ⟨rfl, fun c hc => Or.inl hc, fun e he => Or.inl he⟩
      · rw [if_neg hls]
        by_cases ht : (ctx.tuyaConfigured && o.provider == "tuya") = true
        · rw [if_pos ht]
          cases hp : ctx.provider o.deviceId o.channel want with
          | success =>
            refine ⟨findOutlet_setOutletState_ne _ _ _ _ _ hai, ?_, ?_⟩
            · intro c hc
              rcases List.mem_append.1 hc with h | h
              · exact Or.inl h
              · right
                simp at h
                subst h
                rfl
            · intro e he
              rcases List.mem_append.1 he with h | h
              · exact Or.inl h
              · right
                simp at h
                subst h
                rfl
          | failure err =>
            refine ⟨rfl, ?_, ?_⟩
            · intro c hc
              rcases List.mem_append.1 hc with h | h
              · exact Or.inl h
              · right
                simp at h
                subst h
                rfl
            · intro e he
              rcases List.mem_append.1 he with h | h
              · exact Or.inl h
              · right
                simp at h
                subst h
                rfl
          | exn msg =>
            refine ⟨rfl, ?_, ?_⟩
            · intro c hc
              rcases List.mem_append.1 hc with h | h
              · exact Or.inl h
              · right
                simp at h
                subst h
                rfl
            · intro e he
              rcases List.mem_append.1 he with h | h
              · exact Or.inl h
              · right
                simp at h
                subst h
                rfl
        · rw [if_neg ht]
          refine ⟨findOutlet_setOutletState_ne _ _ _ _ _ hai, ?_, ?_⟩
          · intro c hc
            exact Or.inl hc
          · intro e he
            rcases List.mem_append.1 he with h | h
            · exact Or.inl h
            · right
              simp at h
              subst h
              rfl

/-- Folding a list of entries in which every flagged entry for outlet `i`
wants a state the outlet already has leaves outlet `i`'s row untouched and
creates no call or record for it. -/
theorem foldl_processEntry_skips (ctx : ExecCtx) (zid : Nat) (want : Bool)
    (i : Nat) (o : OutletRec) (l : List (Nat × Bool))
    (hl : ∀ b, (i, b) ∈ l → b = true → o.last_state = some want) :
    ∀ st : ExecState, findOutlet st.outlets zid i = some o →
      findOutlet (l.foldl (processEntry ctx zid want) st).outlets zid i =
          some o ∧
      (∀ c ∈ (l.foldl (processEntry ctx zid want) st).calls,
          c ∈ st.calls ∨ c.outlet_id ≠ i) ∧
      (∀ e ∈ (l.foldl (processEntry ctx zid want) st).executed,
          e ∈ st.executed ∨ e.outlet_id ≠ i) := by
  induction l with
  | nil =>
    intro st hfind
    exact ⟨hfind, fun c hc => Or.inl hc, fun e he => Or.inl he⟩
  | cons a t ih =>
    intro st hfind
    rw [List.foldl_cons]
    by_cases hai : a.1 = i
    · have hmem : (i, a.2) ∈ a :: t := by
        rw [← hai]
        exact List.mem_cons_self a t
      have hstep : processEntry ctx zid want st a = st := by
        unfold processEntry
        rw [hai, hfind]
        dsimp only
        cases hb : a.2
        · simp
        · rw [hl a.2 hmem hb]
          simp
      rw [hstep]
      exact ih (fun b hb hbt => hl b (List.mem_cons_of_mem a hb) hbt)
        st hfind
    · obtain ⟨h1, h2, h3⟩ := processEntry_other ctx zid want st a i hai
      obtain ⟨g1, g2, g3⟩ :=
        ih (fun b hb hbt => hl b (List.mem_cons_of_mem a hb) hbt)
          (processEntry ctx zid want st a) (h1.trans hfind)
      refine ⟨g1, ?_, ?_⟩
      · intro c hc
        rcases g2 c hc with h | h
        · rcases h2 c h with h' | h'
          · exact Or.inl h'
          · exact Or.inr (h' ▸ hai)
        · exact Or.inr h
      · intro e he
        rcases g3 e he with h | h
        · rcases h3 e h with h' | h'
          · exact Or.inl h'
          · exact Or.inr (h' ▸ hai)
        · exact Or.inr h

/-- C7: idempotence of reconciliation — for every outlet whose wanted
state (in the `on`/`off` maps) already equals its `last_state`, a second
application issues zero device commands for it, appends no record for it,
and leaves its row (hence `last_state`) unchanged. -/
theorem C7_already_in_desired_state (ctx : ExecCtx) (action : RuleAction)
    (zid : Nat) (st : ExecState) (i : Nat) (o : OutletRec)
    (hfind : findOutlet st.outlets zid i = some o)
    (hon : ∀ b, (i, b) ∈ action.onMap → b = true →
        o.last_state = some true)
    (hoff : ∀ b, (i, b) ∈ action.offMap → b = true →
        o.last_state = some false) :
    findOutlet (execute_rule_action ctx action zid st).outlets zid i =
        some o ∧
    (∀ c ∈ (execute_rule_action ctx action zid st).calls,
        c ∈ st.calls ∨ c.outlet_id ≠ i) ∧
    (∀ e ∈ (execute_rule_action ctx action zid st).executed,
        e ∈ st.executed ∨ e.outlet_id ≠ i) := by
  unfold execute_rule_action
  obtain ⟨h1, h2, h3⟩ :=
    foldl_processEntry_skips ctx zid true i o action.onMap hon st hfind
  obtain ⟨g1, g2, g3⟩ :=
    foldl_processEntry_skips ctx zid false i o action.offMap hoff
      (action.onMap.foldl (processEntry ctx zid true) st) h1
  refine ⟨g1, ?_, ?_⟩
  · intro c hc
    rcases g2 c hc with h | h
    · exact h2 c h
    · exact Or.inr h
  · intro e he
    rcases g3 e he with h | h
    · exact h3 e h
    · exact Or.inr h

theorem C7_witness :
    findOutlet [{ outlet5 with last_state := some true }] 1 5 =
        some { outlet5 with last_state := some true } ∧
    findOutlet
        (execute_rule_action simCtx ⟨[(5, true)], []⟩ 1
          ⟨[{ outlet5 with last_state := some true }], [], []⟩).outlets
        1 5 =
      some { outlet5 with last_state := some true } ∧
    (∀ c ∈ (execute_rule_action simCtx ⟨[(5, true)], []⟩ 1
        ⟨[{ outlet5 with last_state := some true }], [], []⟩).calls,
        c ∈ ([] : List ProvCall) ∨ c.outlet_id ≠ 5) ∧
    (∀ e ∈ (execute_rule_action simCtx ⟨[(5, true)], []⟩ 1
        ⟨[{ outlet5 with last_state := some true }], [], []⟩).executed,
        e ∈ ([] : List SwitchRecord) ∨ e.outlet_id ≠ 5) :=
  ⟨by decide,
    C7_already_in_desired_state simCtx ⟨[(5, true)], []⟩ 1
      ⟨[{ outlet5 with last_state := some true }], [], []⟩ 5
      { outlet5 with last_state := some true } (by decide)
      (by intro b hb hbt; rfl) (by intro b hb hbt; simp at hb)⟩

/-- C8: for a switch attempted through the provider (Tuya configured,
device provider "tuya", state differs from the wanted one), a failure
response or an exception leaves the outlet rows — hence `last_state` —
unchanged and appends a failure record, while only a success response
sets `last_state` to the commanded value. -/
theorem C8_failure_leaves_state (ctx : ExecCtx) (zid i : Nat)
    (o : OutletRec) (w : Bool) (st : ExecState)
    (hfind : findOutlet st.outlets zid i = some o)
    (hneq : ¬ o.last_state = some w)
    (htuya : ctx.tuyaConfigured = true)
    (hprov : o.provider = "tuya") :
    (∀ err, ctx.provider o.deviceId o.channel w =
        ProviderResult.failure err →
      execute_rule_action ctx (singleAction i w) zid st =
        { st with
            calls := st.calls ++ [⟨i, o.deviceId, o.channel, w⟩]
            executed := st.executed ++ [⟨i, actionName w, false⟩] }) ∧
    (∀ msg, ctx.provider o.deviceId o.channel w =
        ProviderResult.exn msg →
      execute_rule_action ctx (singleAction i w) zid st =
        { st with
            calls := st.calls ++ [⟨i, o.deviceId, o.channel, w⟩]
            executed := st.executed ++ [⟨i, actionName w, false⟩] }) ∧
    (ctx.provider o.deviceId o.channel w = ProviderResult.success →
      execute_rule_action ctx (singleAction i w) zid st =
        ⟨setOutletState st.outlets zid i w,
          st.calls ++ [⟨i, o.deviceId, o.channel, w⟩],
          st.executed ++ [⟨i, actionName w, true⟩]⟩) := by
  have hcond : (ctx.tuyaConfigured && o.provider == "tuya") = true := by
    simp [htuya, hprov]
  have hexec : execute_rule_action ctx (singleAction i w) zid st =
      processEntry ctx zid w st (i, true) := by
    cases w <;> simp [singleAction, execute_rule_action]
  have hstep : processEntry ctx zid w st (i, true) =
      match ctx.provider o.deviceId o.channel w with
      | ProviderResult.success =>
        ⟨setOutletState st.outlets zid i w,
          st.calls ++ [⟨i, o.deviceId, o.channel, w⟩],
          st.executed ++ [⟨i, actionName w, true⟩]⟩
      | ProviderResult.failure _ =>
        { st with
            calls := st.calls ++ [⟨i, o.deviceId, o.channel, w⟩]
            executed := st.executed ++ [⟨i, actionName w, false⟩] }
      | ProviderResult.exn _ =>
        { st with
            calls := st.calls ++ [⟨i, o.deviceId, o.channel, w⟩]
            executed := st.executed ++ [⟨i, actionName w, false⟩] } := by
    unfold processEntry
    dsimp only
    rw [hfind]
    dsimp only
    rw [if_neg (by simp), if_neg hneq, if_pos hcond]
  refine ⟨?_, ?_, ?_⟩
  · intro err hp
    rw [hexec, hstep, hp]
  · intro msg hp
    rw [hexec, hstep, hp]
  · intro hp
    rw [hexec, hstep, hp]

theorem C8_witness :
    findOutlet [outlet5] 1 5 = some outlet5 ∧
    ¬ outlet5.last_state = some true ∧
    failCtx.provider outlet5.deviceId outlet5.channel true =
      ProviderResult.failure "boom" ∧
    execute_rule_action failCtx (singleAction 5 true) 1
        ⟨[outlet5], [], []⟩ =
      { (⟨[outlet5], [], []⟩ : ExecState) with
          calls := [] ++ [⟨5, outlet5.deviceId, outlet5.channel, true⟩]
          executed := [] ++ [⟨5, actionName true, false⟩] } :=
  ⟨by decide, by decide, rfl,
    (C8_failure_leaves_state failCtx 1 5 outlet5 true ⟨[outlet5], [], []⟩
      (by decide) (by decide) rfl rfl).1 "boom" rfl⟩

/-- Lookup commutes with forgetting the override fields. -/
theorem findOutlet_map_clearOverride (outs : List OutletRec)
    (zid i : Nat) :
    findOutlet (outs.map clearOverride) zid i =
      (findOutlet outs zid i).map clearOverride := by
  induction outs with
  | nil => rfl
  | cons o rest ih =>
    unfold findOutlet at *
    simp only [List.map_cons, List.find?_cons]
    have hpred : ((clearOverride o).zone_id == zid &&
        (clearOverride o).id == i) = (o.zone_id == zid && o.id == i) := rfl
    rw [hpred]
    cases hpo : (o.zone_id == zid && o.id == i)
    · exact ih
    · rfl

/-- Updating `last_state` commutes with forgetting the override fields. -/
theorem setOutletState_map_clearOverride (outs : List OutletRec)
    (zid i : Nat) (w : Bool) :
    setOutletState (outs.map clearOverride) zid i w =
      (setOutletState outs zid i w).map clearOverride := by
  induction outs with
  | nil => rfl
  | cons o rest ih =>
    simp only [setOutletState, List.map_cons] at ih ⊢
    congr 1
    by_cases h : (o.zone_id == zid && o.id == i) = true <;>
      simp [h, clearOverride]

/-- One reconciler step never reads the override fields. -/
theorem processEntry_clearOverride (ctx : ExecCtx) (zid : Nat)
    (want : Bool) (st : ExecState) (a : Nat × Bool) :
    processEntry ctx zid want (clearOverrideState st) a =
      clearOverrideState (processEntry ctx zid want st a) := by
  unfold processEntry clearOverrideState
  dsimp only
  rw [findOutlet_map_clearOverride]
  cases hf : findOutlet st.outlets zid a.1 with
  | none => rfl
  | some o =>
    dsimp only [Option.map, clearOverride]
    by_cases hb : (!a.2) = true
    · simp [hb]
    · by_cases hls : o.last_state = some want
      · simp [hb, hls]
      · by_cases ht : (ctx.tuyaConfigured && o.provider == "tuya") = true
        · cases hp : ctx.provider o.deviceId o.channel want <;>
            simp [hb, hls, ht, hp, setOutletState_map_clearOverride,
              clearOverride]
        · simp [hb, hls, ht, setOutletState_map_clearOverride,
            clearOverride]

/-- The reconciler loops never read the override fields. -/
theorem foldl_processEntry_clearOverride (ctx : ExecCtx) (zid : Nat)
    (want : Bool) (l : List (Nat × Bool)) :
    ∀ st : ExecState,
      l.foldl (processEntry ctx zid want) (clearOverrideState st) =
        clearOverrideState (l.foldl (processEntry ctx zid want) st) := by
  induction l with
  | nil => intro st; rfl
  | cons a t ih =>
    intro st
    rw [List.foldl_cons, List.foldl_cons, processEntry_clearOverride]
    exact ih _

/-- C1 (amended): `execute_rule_action` never consults the manual
override — erasing every outlet's `manual_override` flag and expiry
changes nothing in its behaviour (same commands, same records, same
`last_state` updates).  In particular an outlet under an active override
is still switched, and no `manual_override_active` skip exists (see the
counterexample). -/
theorem C1_override_never_consulted (ctx : ExecCtx) (action : RuleAction)
    (zid : Nat) (st : ExecState) :
    execute_rule_action ctx action zid (clearOverrideState st) =
      clearOverrideState (execute_rule_action ctx action zid st) := by
  unfold execute_rule_action
  rw [foldl_processEntry_clearOverride, foldl_processEntry_clearOverride]

/-- A condition that evaluates true has a nonzero threshold and a
nonempty snapshot. -/
theorem eval_true_facts (c : Condition) (sd : SensorData) (now : Int)
    (h : evaluate_scene_condition c sd now = true) :
    c.value.getD 0 ≠ 0 ∧ SensorData.isEmpty sd = false := by
  rcases c with ⟨ct, op, v⟩
  unfold evaluate_scene_condition at h
  cases ct with
  | none => simp at h
  | some ct =>
    cases op with
    | none => simp at h
    | some op =>
      cases v with
      | none => simp at h
      | some tv =>
        dsimp only at h
        by_cases h1 : ct = "" ∨ op = ""
        · rw [if_pos h1] at h
          simp at h
        · rw [if_neg h1] at h
          by_cases h2 : tv = 0
          · rw [if_pos h2] at h
            simp at h
          · rw [if_neg h2] at h
            refine ⟨by simpa using h2, ?_⟩
            cases hm : sd.getMetric ct with
            | none =>
              rw [hm] at h
              simp at h
            | some sv =>
              unfold SensorData.getMetric at hm
              unfold SensorData.isEmpty
              by_cases hct : ct = "temperature"
              · rw [if_pos hct] at hm
                simp [hm]
              · rw [if_neg hct] at hm
                by_cases hh : ct = "humidity"
                · rw [if_pos hh] at hm
                  simp [hm]
                · rw [if_neg hh] at hm
                  exact absurd hm (by simp)

/-- Normalization does not touch a rule whose threshold is nonzero. -/
theorem normalizeRule_of_value_ne (tmin tmax hmin hmax : ℚ)
    (r : SceneRule) (h : r.condition.value.getD 0 ≠ 0) :
    normalizeRule tmin tmax hmin hmax r = r := by
  unfold normalizeRule
  rw [if_neg h]

/-- Reconciling a single-outlet action in simulation mode sets the
outlet's state to the wanted one (or leaves it there). -/
theorem exec_single_outlets (ctx : ExecCtx)
    (hsim : ctx.tuyaConfigured = false) (o : OutletRec) (w : Bool)
    (calls : List ProvCall) (executed : List SwitchRecord) :
    (execute_rule_action ctx (singleAction o.id w) o.zone_id
        ⟨[o], calls, executed⟩).outlets =
      [{ o with last_state := some w }] := by
  have hexec : execute_rule_action ctx (singleAction o.id w) o.zone_id
      ⟨[o], calls, executed⟩ =
      processEntry ctx o.zone_id w ⟨[o], calls, executed⟩ (o.id, true) := by
    cases w <;> simp [singleAction, execute_rule_action]
  rw [hexec]
  unfold processEntry
  have hfind : findOutlet [o] o.zone_id o.id = some o := by
    unfold findOutlet
    simp [List.find?]
  dsimp only
  rw [hfind]
  dsimp only
  rw [if_neg (by simp)]
  by_cases hls : o.last_state = some w
  · rw [if_pos hls]
    have heq : ({ o with last_state := some w } : OutletRec) = o := by
      rw [← hls]
    rw [heq]
  · rw [if_neg hls, if_neg (by simp [hsim])]
    unfold setOutletState
    simp

/-- A two-element stable descending sort, computed. -/
theorem sort_two (x y : SceneRule) :
    sortByPriorityDesc [x, y] =
      if y.priority < x.priority then [x, y] else [y, x] := by
  simp only [sortByPriorityDesc, insertByPriorityDesc]

/-- Normalization is the identity on rule lists whose thresholds are all
nonzero. -/
theorem norm_map_id (tmin tmax hmin hmax : ℚ) (sid : Nat)
    (rl : List SceneRule)
    (h : ∀ r ∈ rl, r.condition.value.getD 0 ≠ 0) :
    rl.map (fun r =>
        if r.scene_id == sid then normalizeRule tmin tmax hmin hmax r
        else r) = rl := by
  induction rl with
  | nil => rfl
  | cons r t ih =>
    simp only [List.map_cons]
    have hhead : (if r.scene_id == sid then
        normalizeRule tmin tmax hmin hmax r else r) = r := by
      by_cases hs : (r.scene_id == sid) = true
      · rw [if_pos hs]
        exact normalizeRule_of_value_ne _ _ _ _ r
          (h r (List.mem_cons_self r t))
      · rw [if_neg hs]
    rw [hhead, ih (fun r hr => h r (List.mem_cons_of_mem _ hr))]

/-- Processing a two-rule scene whose sorted order is `[rb, ra]` and whose
conditions are both true applies `rb`'s single-outlet action and then
`ra`'s, so `ra`'s wanted state `wa` is what remains. -/
theorem process_sceneDB_two_sorted (ctx : ExecCtx) (now : Int)
    (settings : SceneSettings) (sensors : List Sensor)
    (readings : List Reading) (o : OutletRec) (rl : List SceneRule)
    (ra rb : SceneRule) (wa wb : Bool)
    (hsim : ctx.tuyaConfigured = false)
    (hnorm : rl.map (fun r =>
        if r.scene_id == (1 : Nat) then
          normalizeRule (rangeOr settings.temperature_range.min 20)
            (rangeOr settings.temperature_range.max 26)
            (rangeOr settings.humidity_range.min 55)
            (rangeOr settings.humidity_range.max 70) r
        else r) = rl)
    (hsort : sortByPriorityDesc
        (rl.filter (fun r => r.scene_id == (1 : Nat))) = [rb, ra])
    (hne : ¬ SensorData.isEmpty (get_zone_sensor_data o.zone_id
        (sceneDB settings sensors readings o rl)) = true)
    (haa : ra.action = singleAction o.id wa)
    (hab : rb.action = singleAction o.id wb)
    (h1 : evaluate_scene_condition ra.condition (get_zone_sensor_data
        o.zone_id (sceneDB settings sensors readings o rl)) now = true)
    (h2 : evaluate_scene_condition rb.condition (get_zone_sensor_data
        o.zone_id (sceneDB settings sensors readings o rl)) now = true) :
    (process_scene_rules ctx now 1
        (sceneDB settings sensors readings o rl)).1.outlets =
      [{ o with last_state := some wa }] := by
  unfold process_scene_rules
  rw [show List.find? (fun s => s.id == 1)
      (sceneDB settings sensors readings o rl).scenes =
      some ⟨1, o.zone_id, true, settings⟩ from rfl]
  dsimp only [sceneDB] at hne h1 h2 ⊢
  rw [if_neg (by simp : ¬((!(true : Bool)) = true))]
  unfold normalize_scene_settings
  dsimp only
  simp only [hnorm]
  rw [if_neg hne]
  simp only [hsort]
  rw [if_neg (by simp : ¬(List.isEmpty [rb, ra] = true))]
  rw [List.foldl_cons]
  dsimp only
  rw [if_pos h2, hab]
  rw [List.foldl_cons, List.foldl_nil]
  rw [if_pos h1, haa]
  have hout1 := exec_single_outlets ctx hsim o wb [] []
  have hE : execute_rule_action ctx (singleAction o.id wb) o.zone_id
      ⟨[o], [], []⟩ =
      ⟨[{ o with last_state := some wb }],
        (execute_rule_action ctx (singleAction o.id wb) o.zone_id
          ⟨[o], [], []⟩).calls,
        (execute_rule_action ctx (singleAction o.id wb) o.zone_id
          ⟨[o], [], []⟩).executed⟩ := by
    rw [← hout1]
  rw [hE]
  have hout2 := exec_single_outlets ctx hsim
    { o with last_state := some wb } wa
    (execute_rule_action ctx (singleAction o.id wb) o.zone_id
      ⟨[o], [], []⟩).calls
    (execute_rule_action ctx (singleAction o.id wb) o.zone_id
      ⟨[o], [], []⟩).executed
  dsimp only at hout2
  exact hout2

/-- C2 (amended): rules are applied in *descending* priority order and
each matching rule's action is executed immediately, so for two rules
with true conditions whose single-outlet actions conflict, the rule with
the **lower** priority value runs last and determines the final state —
regardless of the order in which the rules are stored (stated in
simulation mode, where every command applies). -/
theorem C2_lower_priority_wins (ctx : ExecCtx) (now : Int)
    (settings : SceneSettings) (sensors : List Sensor)
    (readings : List Reading) (o : OutletRec) (c1 c2 : Condition)
    (p1 p2 : Int) (w1 w2 : Bool) (rid1 rid2 : Nat)
    (hsim : ctx.tuyaConfigured = false)
    (hp : p1 < p2) (hw : w1 ≠ w2)
    (h1 : evaluate_scene_condition c1
        (get_zone_sensor_data o.zone_id (sensorOnlyDB sensors readings))
        now = true)
    (h2 : evaluate_scene_condition c2
        (get_zone_sensor_data o.zone_id (sensorOnlyDB sensors readings))
        now = true) :
    (process_scene_rules ctx now 1
        (sceneDB settings sensors readings o
          [mkSingleRule rid1 c1 o.id w1 p1,
            mkSingleRule rid2 c2 o.id w2 p2])).1.outlets =
      [{ o with last_state := some w1 }] ∧
    (process_scene_rules ctx now 1
        (sceneDB settings sensors readings o
          [mkSingleRule rid2 c2 o.id w2 p2,
            mkSingleRule rid1 c1 o.id w1 p1])).1.outlets =
      [{ o with last_state := some w1 }] := by
  have hv1 : c1.value.getD 0 ≠ 0 := (eval_true_facts c1 _ now h1).1
  have hv2 : c2.value.getD 0 ≠ 0 := (eval_true_facts c2 _ now h2).1
  have hemp : SensorData.isEmpty (get_zone_sensor_data o.zone_id
      (sensorOnlyDB sensors readings)) = false :=
    (eval_true_facts c1 _ now h1).2
  constructor
  · refine process_sceneDB_two_sorted ctx now settings sensors readings o
      _ (mkSingleRule rid1 c1 o.id w1 p1)
      (mkSingleRule rid2 c2 o.id w2 p2) w1 w2 hsim
      (norm_map_id _ _ _ _ 1 _ ?_) ?_ ?_ rfl rfl h1 h2
    · intro r hr
      rcases List.mem_cons.1 hr with h | h
      · subst h
        exact hv1
      · rcases List.mem_cons.1 h with h' | h'
        · subst h'
          exact hv2
        · exact absurd h' (List.not_mem_nil r)
    · rw [show List.filter (fun r => r.scene_id == (1 : Nat))
          [mkSingleRule rid1 c1 o.id w1 p1,
            mkSingleRule rid2 c2 o.id w2 p2] =
          [mkSingleRule rid1 c1 o.id w1 p1,
            mkSingleRule rid2 c2 o.id w2 p2] from rfl, sort_two]
      simp only [mkSingleRule]
      rw [if_neg (lt_asymm hp)]
    · have hemp' : SensorData.isEmpty (get_zone_sensor_data o.zone_id
          (sceneDB settings sensors readings o
            [mkSingleRule rid1 c1 o.id w1 p1,
              mkSingleRule rid2 c2 o.id w2 p2])) = false := hemp
      simp [hemp']
  · refine process_sceneDB_two_sorted ctx now settings sensors readings o
      _ (mkSingleRule rid1 c1 o.id w1 p1)
      (mkSingleRule rid2 c2 o.id w2 p2) w1 w2 hsim
      (norm_map_id _ _ _ _ 1 _ ?_) ?_ ?_ rfl rfl h1 h2
    · intro r hr
      rcases List.mem_cons.1 hr with h | h
      · subst h
        exact hv2
      · rcases List.mem_cons.1 h with h' | h'
        · subst h'
          exact hv1
        · exact absurd h' (List.not_mem_nil r)
    · rw [show List.filter (fun r => r.scene_id == (1 : Nat))
          [mkSingleRule rid2 c2 o.id w2 p2,
            mkSingleRule rid1 c1 o.id w1 p1] =
          [mkSingleRule rid2 c2 o.id w2 p2,
            mkSingleRule rid1 c1 o.id w1 p1] from rfl, sort_two]
      simp only [mkSingleRule]
      rw [if_pos hp]
    · have hemp' : SensorData.isEmpty (get_zone_sensor_data o.zone_id
          (sceneDB settings sensors readings o
            [mkSingleRule rid2 c2 o.id w2 p2,
              mkSingleRule rid1 c1 o.id w1 p1])) = false := hemp
      simp [hemp']

theorem C2_witness :
    simCtx.tuyaConfigured = false ∧ (1 : Int) < 2 ∧ true ≠ false ∧
    evaluate_scene_condition ⟨some "temperature", some "<=", some 18⟩
      (get_zone_sensor_data outlet5.zone_id
        (sensorOnlyDB [⟨1, 1⟩] [⟨1, 18, "°C", 0⟩])) 0 = true ∧
    evaluate_scene_condition ⟨some "temperature", some ">=", some 18⟩
      (get_zone_sensor_data outlet5.zone_id
        (sensorOnlyDB [⟨1, 1⟩] [⟨1, 18, "°C", 0⟩])) 0 = true ∧
    ((process_scene_rules simCtx 0 1
        (sceneDB noRanges [⟨1, 1⟩] [⟨1, 18, "°C", 0⟩] outlet5
          [mkSingleRule 1 ⟨some "temperature", some "<=", some 18⟩
              outlet5.id true 1,
            mkSingleRule 2 ⟨some "temperature", some ">=", some 18⟩
              outlet5.id false 2])).1.outlets =
        [{ outlet5 with last_state := some true }] ∧
      (process_scene_rules simCtx 0 1
        (sceneDB noRanges [⟨1, 1⟩] [⟨1, 18, "°C", 0⟩] outlet5
          [mkSingleRule 2 ⟨some "temperature", some ">=", some 18⟩
              outlet5.id false 2,
            mkSingleRule 1 ⟨some "temperature", some "<=", some 18⟩
              outlet5.id true 1])).1.outlets =
        [{ outlet5 with last_state := some true }]) :=
  ⟨rfl, by decide, by decide, by decide, by decide,
    C2_lower_priority_wins simCtx 0 noRanges [⟨1, 1⟩]
      [⟨1, 18, "°C", 0⟩] outlet5
      ⟨some "temperature", some "<=", some 18⟩
      ⟨some "temperature", some ">=", some 18⟩ 1 2 true false 1 2
      rfl (by decide) (by decide) (by decide) (by decide)⟩

/-- `process_scene_rules` touches neither the session rows nor the zone
rows. -/
theorem process_scene_rules_frame (ctx : ExecCtx) (now : Int)
    (sid : Nat) (db : DB) :
    (process_scene_rules ctx now sid db).1.sessions = db.sessions ∧
    (process_scene_rules ctx now sid db).1.zones = db.zones := by
  unfold process_scene_rules
  split
  · exact ⟨rfl, rfl⟩
  · split
    · exact ⟨rfl, rfl⟩
    · dsimp only
      split
      · exact ⟨rfl, rfl⟩
      · split
        · exact ⟨rfl, rfl⟩
        · exact ⟨rfl, rfl⟩

/-- The session-evaluation loop only rewrites `last_evaluation_at`
fields: the resulting session list is a pointwise image of the input one
that preserves id, status and activity, and zones are untouched. -/
theorem evalSessions_shape (ctx : ExecCtx) (now : Int)
    (l : List SessionRow) :
    ∀ (db : DB) (cs : List ProvCall), ∃ g : SessionRow → SessionRow,
      (l.foldl (fun acc s =>
          let r := process_scene_rules ctx now s.scene_id acc.1
          ({ r.1 with sessions := setLastEval now s.id r.1.sessions },
            acc.2 ++ r.2.1)) (db, cs)).1.sessions = db.sessions.map g ∧
      (l.foldl (fun acc s =>
          let r := process_scene_rules ctx now s.scene_id acc.1
          ({ r.1 with sessions := setLastEval now s.id r.1.sessions },
            acc.2 ++ r.2.1)) (db, cs)).1.zones = db.zones ∧
      (∀ t, (g t).id = t.id ∧ (g t).status = t.status ∧
        (g t).is_active = t.is_active) := by
  induction l with
  | nil =>
    intro db cs
    exact ⟨id, by simp, rfl, fun t => ⟨rfl, rfl, rfl⟩⟩
  | cons s t ih =>
    intro db cs
    rw [List.foldl_cons]
    dsimp only
    have ha := process_scene_rules_frame ctx now s.scene_id db
    rw [ha.1]
    obtain ⟨g, hs, hz, hp⟩ := ih
      { (process_scene_rules ctx now s.scene_id db).1 with
          sessions := setLastEval now s.id db.sessions }
      (cs ++ (process_scene_rules ctx now s.scene_id db).2.1)
    refine ⟨g ∘ (fun u =>
      if u.id == s.id then { u with last_evaluation_at := some now }
      else u), ?_, ?_, ?_⟩
    · rw [hs]
      exact List.map_map _ _ _
    · rw [hz]
      exact ha.2
    · intro u
      have hcomp := hp (if u.id == s.id then
          { u with last_evaluation_at := some now } else u)
      simp only [Function.comp_apply]
      refine ⟨hcomp.1.trans ?_, hcomp.2.1.trans ?_,
        hcomp.2.2.trans ?_⟩ <;>
        by_cases h : (u.id == s.id) = true <;> simp [h]

/-- The standalone-scene loop touches neither sessions nor zones. -/
theorem evalStandalone_frame (ctx : ExecCtx) (now : Int)
    (l : List Scene) :
    ∀ (db : DB) (cs : List ProvCall),
      (l.foldl (fun acc sc =>
          let r := process_scene_rules ctx now sc.id acc.1
          (r.1, acc.2 ++ r.2.1)) (db, cs)).1.sessions = db.sessions ∧
      (l.foldl (fun acc sc =>
          let r := process_scene_rules ctx now sc.id acc.1
          (r.1, acc.2 ++ r.2.1)) (db, cs)).1.zones = db.zones := by
  induction l with
  | nil => intro db cs; exact ⟨rfl, rfl⟩
  | cons sc t ih =>
    intro db cs
    rw [List.foldl_cons]
    dsimp only
    have ha := process_scene_rules_frame ctx now sc.id db
    obtain ⟨hs, hz⟩ := ih (process_scene_rules ctx now sc.id db).1
      (cs ++ (process_scene_rules ctx now sc.id db).2.1)
    exact ⟨hs.trans ha.1, hz.trans ha.2⟩

/-- An expired running session satisfies the scheduler's expiry test. -/
theorem expiredCond_true (now : Int) (s : SessionRow)
    (hrun : s.status = "running") (hact : s.is_active = true)
    (hexp : s.duration_minutes * 60 ≤ now - s.started_at) :
    expiredCond now s = true := by
  simp [expiredCond, hrun, hact, hexp]

/-- `evalSessions` restated through the definition. -/
theorem evalSessions_shape_def (ctx : ExecCtx) (now : Int)
    (l : List SessionRow) (db : DB) :
    ∃ g : SessionRow → SessionRow,
      (evalSessions ctx now l db).1.sessions = db.sessions.map g ∧
      (evalSessions ctx now l db).1.zones = db.zones ∧
      (∀ t, (g t).id = t.id ∧ (g t).status = t.status ∧
        (g t).is_active = t.is_active) :=
  evalSessions_shape ctx now l db []

/-- `evalStandalone` restated through the definition. -/
theorem evalStandalone_frame_def (ctx : ExecCtx) (now : Int)
    (l : List Scene) (db : DB) :
    (evalStandalone ctx now l db).1.sessions = db.sessions ∧
    (evalStandalone ctx now l db).1.zones = db.zones :=
  evalStandalone_frame ctx now l db []

/-- C6: with the kill switch inactive and distinct session ids, a running
session whose elapsed time has reached its duration is transitioned by
the tick to `completed`/inactive, its zone is forced back to `manual`
(both in the expiry phase, which commits before any rule evaluation), and
the session is not in the list evaluated this tick — its scene is never
evaluated on the session's behalf again. -/
theorem C6_session_expiry (ctx : ExecCtx) (now : Int) (db : DB)
    (s : SessionRow)
    (hks : killSwitchActive db = false)
    (hmem : s ∈ db.sessions)
    (hrun : s.status = "running") (hact : s.is_active = true)
    (hexp : s.duration_minutes * 60 ≤ now - s.started_at)
    (hnodup : (db.sessions.map (fun t => t.id)).Nodup) :
    (∀ t ∈ (evaluate_all_active_scenes ctx now db).db.sessions,
        t.id = s.id → t.status = "completed" ∧ t.is_active = false) ∧
    (∀ z ∈ (evaluate_all_active_scenes ctx now db).db.zones,
        z.id = s.zone_id → z.mode = "manual") ∧
    s.id ∉ (evaluate_all_active_scenes ctx now db).evaluatedSessionIds := by
  have hinj : ∀ u ∈ db.sessions, u.id = s.id → u = s := fun u hu hid =>
    List.inj_on_of_nodup_map hnodup hu hmem hid
  have hcond := expiredCond_true now s hrun hact hexp
  have hexpire : expireSession now s =
      { s with is_active := false, status := "completed" } := by
    unfold expireSession
    rw [if_pos hcond]
  unfold evaluate_all_active_scenes
  rw [if_neg (by simp [hks])]
  dsimp only
  obtain ⟨g, hs2, hz2, hp2⟩ := evalSessions_shape_def ctx now
    ((db.sessions.map (expireSession now)).filter runningFilter)
    { db with sessions := db.sessions.map (expireSession now)
              zones := expireZones now db.sessions db.zones }
  refine ⟨?_, ?_, ?_⟩
  · intro t ht hid
    rw [(evalStandalone_frame_def ctx now _ _).1] at ht
    rw [hs2] at ht
    dsimp only at ht
    rw [List.map_map] at ht
    rcases List.mem_map.1 ht with ⟨u, hu, rfl⟩
    have huid : u.id = s.id := by
      have h1 := (hp2 (expireSession now u)).1
      rw [Function.comp_apply] at hid
      rw [h1] at hid
      unfold expireSession at hid
      by_cases h : expiredCond now u = true
      · rw [if_pos h] at hid
        exact hid
      · rw [if_neg h] at hid
        exact hid
    have hus : u = s := hinj u hu huid
    subst hus
    rw [Function.comp_apply, hexpire]
    have hrec := hp2 { u with is_active := false, status := "completed" }
    exact ⟨hrec.2.1, hrec.2.2⟩
  · intro z hz hid
    rw [(evalStandalone_frame_def ctx now _ _).2] at hz
    rw [hz2] at hz
    dsimp only at hz
    unfold expireZones at hz
    rcases List.mem_map.1 hz with ⟨z0, hz0, rfl⟩
    have hzin : ((db.sessions.filter (expiredCond now)).map
        (fun t => t.zone_id)).contains z0.id = true := by
      apply List.elem_eq_true_of_mem
      have hzid : z0.id = s.zone_id := by
        by_cases h : ((db.sessions.filter (expiredCond now)).map
            (fun t => t.zone_id)).contains z0.id = true
        · rw [if_pos h] at hid
          exact hid
        · rw [if_neg h] at hid
          exact hid
      rw [hzid]
      exact List.mem_map.2 ⟨s, List.mem_filter.2 ⟨hmem, hcond⟩, rfl⟩
    rw [if_pos hzin]
  · intro hbad
    rcases List.mem_map.1 hbad with ⟨t, htf, hid⟩
    rcases List.mem_filter.1 htf with ⟨htm, hrf⟩
    rcases List.mem_map.1 htm with ⟨u, hu, rfl⟩
    have huid : u.id = s.id := by
      unfold expireSession at hid
      by_cases h : expiredCond now u = true
      · rw [if_pos h] at hid
        exact hid
      · rw [if_neg h] at hid
        exact hid
    have hus : u = s := hinj u hu huid
    subst hus
    rw [hexpire] at hrf
    simp [runningFilter] at hrf

theorem C6_witness :
    killSwitchActive dbExpired = false ∧
    runningSession ∈ dbExpired.sessions ∧
    runningSession.status = "running" ∧
    runningSession.is_active = true ∧
    runningSession.duration_minutes * 60 ≤
      (1000 : Int) - runningSession.started_at ∧
    (dbExpired.sessions.map (fun t => t.id)).Nodup ∧
    ((∀ t ∈ (evaluate_all_active_scenes simCtx 1000 dbExpired).db.sessions,
        t.id = runningSession.id →
          t.status = "completed" ∧ t.is_active = false) ∧
      (∀ z ∈ (evaluate_all_active_scenes simCtx 1000 dbExpired).db.zones,
          z.id = runningSession.zone_id → z.mode = "manual") ∧
      runningSession.id ∉
        (evaluate_all_active_scenes simCtx 1000
          dbExpired).evaluatedSessionIds) :=
  ⟨by decide, by decide, rfl, rfl, by decide, by decide,
    C6_session_expiry simCtx 1000 dbExpired runningSession (by decide)
      (by decide) rfl rfl (by decide) (by decide)⟩

/-- C10: the status GET endpoint mutates state — when the running session
of the zone has expired (elapsed ≥ duration, i.e. remaining ≤ 0), the GET
marks it completed and inactive, forces the zone to manual, and answers
that the zone has no active session. -/
theorem C10_status_get_mutates (now : Int) (zone_id : Nat) (db : DB)
    (s : SessionRow) (z : Zone)
    (hz : db.zones.find? (fun z => z.id == zone_id) = some z)
    (hs : db.sessions.find? (fun t =>
        t.zone_id == zone_id && t.is_active && t.status == "running") =
      some s)
    (hexp : s.duration_minutes * 60 - (now - s.started_at) ≤ 0) :
    ∃ db', get_zone_automation_status now zone_id db =
        some (db', ⟨zone_id, false, none⟩) ∧
      (∀ t ∈ db'.sessions, t.id = s.id →
          t.status = "completed" ∧ t.is_active = false) ∧
      (∀ z' ∈ db'.zones, z'.id = zone_id → z'.mode = "manual") := by
  unfold get_zone_automation_status
  rw [hz, hs]
  dsimp only
  rw [if_pos hexp]
  refine ⟨_, rfl, ?_, ?_⟩
  · intro t ht hid
    rcases List.mem_map.1 ht with ⟨u, hu, rfl⟩
    by_cases h : u.id = s.id
    · simp [h]
    · simp [h] at hid
  · intro z' hz' hid
    rcases List.mem_map.1 hz' with ⟨u, hu, rfl⟩
    by_cases h : u.id = zone_id
    · simp [h]
    · simp [h] at hid

theorem C10_witness :
    dbStatus.sessions.find? (fun t =>
        t.zone_id == 1 && t.is_active && t.status == "running") =
      some runningSession ∧
    runningSession.duration_minutes * 60 -
        ((900 : Int) - runningSession.started_at) ≤ 0 ∧
    (∃ db', get_zone_automation_status 900 1 dbStatus =
        some (db', ⟨1, false, none⟩) ∧
      (∀ t ∈ db'.sessions, t.id = runningSession.id →
          t.status = "completed" ∧ t.is_active = false) ∧
      (∀ z' ∈ db'.zones, z'.id = 1 → z'.mode = "manual")) :=
  ⟨by decide, by decide,
    C10_status_get_mutates 900 1 dbStatus runningSession
      ⟨1, "automatic"⟩ (by decide) (by decide) (by decide)⟩

/-- `process_scene_rules` never touches the scene rows. -/
theorem process_scene_rules_scenes (ctx : ExecCtx) (now : Int)
    (sid : Nat) (db : DB) :
    (process_scene_rules ctx now sid db).1.scenes = db.scenes := by
  unfold process_scene_rules
  split
  · rfl
  · split
    · rfl
    · dsimp only
      split
      · rfl
      · split
        · rfl
        · rfl

/-- The session-evaluation loop never touches the scene rows. -/
theorem evalSessions_scenes (ctx : ExecCtx) (now : Int)
    (l : List SessionRow) :
    ∀ (db : DB) (cs : List ProvCall),
      (l.foldl (fun acc s =>
          let r := process_scene_rules ctx now s.scene_id acc.1
          ({ r.1 with sessions := setLastEval now s.id r.1.sessions },
            acc.2 ++ r.2.1)) (db, cs)).1.scenes = db.scenes := by
  induction l with
  | nil => intro db cs; rfl
  | cons s t ih =>
    intro db cs
    rw [List.foldl_cons]
    dsimp only
    have hstep := ih
      { (process_scene_rules ctx now s.scene_id db).1 with
          sessions := setLastEval now s.id
            (process_scene_rules ctx now s.scene_id db).1.sessions }
      (cs ++ (process_scene_rules ctx now s.scene_id db).2.1)
    rw [hstep]
    exact process_scene_rules_scenes ctx now s.scene_id db

/-- `evalSessions_scenes` restated through the definition. -/
theorem evalSessions_scenes_def (ctx : ExecCtx) (now : Int)
    (l : List SessionRow) (db : DB) :
    (evalSessions ctx now l db).1.scenes = db.scenes :=
  evalSessions_scenes ctx now l db []

/-- C4 (amended): the active flag gates evaluation on both paths of the
tick.  (1) The Scene referenced by a running session is evaluated only
when it is *also* flagged active: `process_scene_rules` refuses an
inactive scene outright — store untouched, no command issued, failure
"Scene not found or not active" reported.  (2) Every scene flagged
active with no running session referencing it (after the expiry phase)
is picked up by the tick's standalone pass. -/
theorem C4_scene_active_flag_gates (ctx : ExecCtx) (now : Int)
    (db : DB) :
    (∀ (scene_id : Nat) (scene : Scene),
      db.scenes.find? (fun s => s.id == scene_id) = some scene →
      scene.is_active = false →
      process_scene_rules ctx now scene_id db =
        (db, [], ProcResult.failure "Scene not found or not active")) ∧
    (∀ sc ∈ db.scenes, killSwitchActive db = false →
      sc.is_active = true →
      sc.id ∉ ((db.sessions.map (expireSession now)).filter
        runningFilter).map (fun t => t.scene_id) →
      sc.id ∈
        (evaluate_all_active_scenes ctx now db).standaloneSceneIds) := by
  constructor
  · intro scene_id scene hfind hinactive
    unfold process_scene_rules
    rw [hfind]
    simp [hinactive]
  · intro sc hsc hks hactive hnosess
    unfold evaluate_all_active_scenes
    rw [if_neg (by simp [hks])]
    dsimp only
    apply List.mem_map.2
    refine ⟨sc, ?_, rfl⟩
    apply List.mem_filter.2
    have hnotelem : (((db.sessions.map (expireSession now)).filter
        runningFilter).map (fun t => t.scene_id)).contains sc.id =
        false := by
      cases hx : (((db.sessions.map (expireSession now)).filter
          runningFilter).map (fun t => t.scene_id)).contains sc.id
      · rfl
      · exact absurd (List.mem_of_elem_eq_true hx) hnosess
    constructor
    · rw [evalSessions_scenes_def]
      exact hsc
    · rw [hactive, hnotelem]
      rfl

theorem C4_witness :
    dbInactiveScene.scenes.find? (fun s => s.id == 1) =
      some ⟨1, 1, false, noRanges⟩ ∧
    (⟨1, 1, false, noRanges⟩ : Scene).is_active = false ∧
    process_scene_rules simCtx 0 1 dbInactiveScene =
      (dbInactiveScene, [],
        ProcResult.failure "Scene not found or not active") ∧
    (⟨1, 1, true, noRanges⟩ : Scene) ∈ dbConflict.scenes ∧
    killSwitchActive dbConflict = false ∧
    (1 : Nat) ∉ ((dbConflict.sessions.map (expireSession 0)).filter
      runningFilter).map (fun t => t.scene_id) ∧
    (1 : Nat) ∈
      (evaluate_all_active_scenes simCtx 0 dbConflict).standaloneSceneIds :=
  ⟨by decide, rfl,
    (C4_scene_active_flag_gates simCtx 0 dbInactiveScene).1 1
      ⟨1, 1, false, noRanges⟩ (by decide) rfl,
    by decide, by decide, by decide,
    (C4_scene_active_flag_gates simCtx 0 dbConflict).2
      ⟨1, 1, true, noRanges⟩ (by decide) (by decide) rfl (by decide)⟩

end Terrario
